import Mathlib

/-!
Verification of the YASK `StencilContext` API layer
(`src/kernel/lib/soln_apis.cpp`) against its natural-language
specification.

The C++ code is shallowly embedded: `double` timer values become exact
rationals (ℚ), `idx_t` becomes `Int`, throwing functions return
`Except`-style results, and the mutable `StencilContext` becomes an
explicit state record.  Functions whose bodies are not in the provided
sources (`checkDimType`, `update_grid_info`, `Grid::share_storage`) are
modelled from the specification and marked as such in their doc
comments.
-/

namespace Yask

/-! ## Timer reconciliation (`StencilContext::get_stats`, lines 347-446)

The raw overlapping timer samples and the derived (reconciled)
categories.  All `double` arithmetic is modelled exactly over ℚ. -/

/-- The six raw timer samples read at the top of `get_stats`:
`run_time`, `wait_time`, `halo_time`, `ext_time`, `int_time`,
`test_time` (elapsed seconds since the last clear). -/
structure RawTimers where
  run      : ℚ
  wait     : ℚ
  halo     : ℚ
  exterior : ℚ
  interior : ℚ
  test     : ℚ
  deriving Repr, DecidableEq

/-- The derived categories computed by `get_stats`. -/
structure Reconciled where
  halo_eff     : ℚ
  wait_eff     : ℚ
  exterior_eff : ℚ
  test_avg     : ℚ
  interior_eff : ℚ
  compute      : ℚ
  halo_total   : ℚ
  other        : ℚ
  deriving Repr, DecidableEq

/-- The reconciliation chain of `get_stats`
(soln_apis.cpp lines 356-385), as a pure function of the raw samples
and the region-thread count `rthr`:

* `hetime = min(halo_time, rtime)`
* `wtime  = min(wait_time, hetime)`
* `etime  = min(ext_time, rtime - hetime)`
* `ttime  = test_time / rthr`
* `itime  = int_time - ttime; itime = min(itime, rtime - hetime - etime)`
* `ctime  = etime + itime`
* `htime  = hetime + ttime`
* `otime  = max(rtime - ctime - htime, 0)` -/
def reconcile (t : RawTimers) (rthr : ℚ) : Reconciled :=
  let rtime := t.run
  let hetime := min t.halo rtime
  let wtime := min t.wait hetime
  let etime := min t.exterior (rtime - hetime)
  let ttime := t.test / rthr
  let itime := min (t.interior - ttime) (rtime - hetime - etime)
  let ctime := etime + itime
  let htime := hetime + ttime
  let otime := max (rtime - ctime - htime) 0
  { halo_eff := hetime, wait_eff := wtime, exterior_eff := etime,
    test_avg := ttime, interior_eff := itime, compute := ctime,
    halo_total := htime, other := otime }

theorem reconcile_halo_eff (t : RawTimers) (rthr : ℚ) :
    (reconcile t rthr).halo_eff = min t.halo t.run := rfl

theorem reconcile_wait_eff (t : RawTimers) (rthr : ℚ) :
    (reconcile t rthr).wait_eff = min t.wait (reconcile t rthr).halo_eff := rfl

theorem reconcile_exterior_eff (t : RawTimers) (rthr : ℚ) :
    (reconcile t rthr).exterior_eff
      = min t.exterior (t.run - (reconcile t rthr).halo_eff) := rfl

theorem reconcile_test_avg (t : RawTimers) (rthr : ℚ) :
    (reconcile t rthr).test_avg = t.test / rthr := rfl

theorem reconcile_interior_eff (t : RawTimers) (rthr : ℚ) :
    (reconcile t rthr).interior_eff
      = min (t.interior - (reconcile t rthr).test_avg)
          (t.run - (reconcile t rthr).halo_eff
             - (reconcile t rthr).exterior_eff) := rfl

theorem reconcile_compute (t : RawTimers) (rthr : ℚ) :
    (reconcile t rthr).compute
      = (reconcile t rthr).exterior_eff + (reconcile t rthr).interior_eff := rfl

theorem reconcile_halo_total (t : RawTimers) (rthr : ℚ) :
    (reconcile t rthr).halo_total
      = (reconcile t rthr).halo_eff + (reconcile t rthr).test_avg := rfl

theorem reconcile_other (t : RawTimers) (rthr : ℚ) :
    (reconcile t rthr).other
      = max (t.run - (reconcile t rthr).compute
               - (reconcile t rthr).halo_total) 0 := rfl

/-- The hypotheses of claim C1 on the raw samples:
all samples non-negative, `wait ≤ halo ≤ run`,
`exterior + interior ≤ run`. -/
def C1hyp (t : RawTimers) : Prop :=
  0 ≤ t.run ∧ 0 ≤ t.wait ∧ 0 ≤ t.halo ∧ 0 ≤ t.exterior ∧
  0 ≤ t.interior ∧ 0 ≤ t.test ∧
  t.wait ≤ t.halo ∧ t.halo ≤ t.run ∧ t.exterior + t.interior ≤ t.run

/-- The conclusion of claim C1: the reconciled categories partition
`run` and none of them is negative. -/
def C1concl (t : RawTimers) (rthr : ℚ) : Prop :=
  (reconcile t rthr).compute + (reconcile t rthr).halo_total
      + (reconcile t rthr).other = t.run ∧
  0 ≤ (reconcile t rthr).halo_eff ∧ 0 ≤ (reconcile t rthr).wait_eff ∧
  0 ≤ (reconcile t rthr).exterior_eff ∧ 0 ≤ (reconcile t rthr).interior_eff ∧
  0 ≤ (reconcile t rthr).compute ∧ 0 ≤ (reconcile t rthr).halo_total ∧
  0 ≤ (reconcile t rthr).other

/-- A raw-sample vector satisfying all of C1's hypotheses on which the
reconciliation breaks both conclusions: run 10, wait 0, halo 8,
exterior 2, interior 1, test 100, one region thread. -/
def t_cex : RawTimers :=
  { run := 10, wait := 0, halo := 8, exterior := 2, interior := 1, test := 100 }

/-- C1: the claim as stated is false.  With one region thread and raw
samples `run = 10`, `wait = 0`, `halo = 8`, `exterior = 2`,
`interior = 1`, `test = 100` (all non-negative, `wait ≤ halo ≤ run`,
`exterior + interior ≤ run`), `get_stats` computes
`interior_eff = min(1 - 100, 10 - 8 - 2) = -99 < 0` and
`compute + halo_total + other = (-97) + 108 + 0 = 11 ≠ 10 = run`. -/
theorem C1_counterexample : C1hyp t_cex ∧ ¬ C1concl t_cex 1 := by
  constructor
  · unfold C1hyp t_cex; norm_num
  · intro h
    have h5 := h.2.2.2.2.1
    rw [reconcile_interior_eff, reconcile_test_avg, reconcile_exterior_eff,
      reconcile_halo_eff] at h5
    unfold t_cex at h5
    norm_num [min_def] at h5

/-- C1 (amended): for non-negative raw samples with `wait ≤ halo`, a
positive region-thread count, a test sample consistent with the
interior sample (`test / rthr ≤ interior`), and halo, exterior and
interior jointly bounded by the run sample
(`exterior + interior + halo ≤ run`), the reconciled categories satisfy
`compute + halo_total + other = run` exactly and no derived category
(halo_eff, wait_eff, exterior_eff, interior_eff, compute, halo_total,
other) is negative. -/
theorem C1_amended_reconcile_partition (t : RawTimers) (rthr : ℚ)
    (hw0 : 0 ≤ t.wait) (hx0 : 0 ≤ t.exterior) (hi0 : 0 ≤ t.interior)
    (ht0 : 0 ≤ t.test) (hwh : t.wait ≤ t.halo) (hr : 0 < rthr)
    (hta : t.test / rthr ≤ t.interior)
    (hsum : t.exterior + t.interior + t.halo ≤ t.run) :
    C1concl t rthr := by
  have hh0 : 0 ≤ t.halo := le_trans hw0 hwh
  have htt0 : 0 ≤ t.test / rthr := div_nonneg ht0 hr.le
  have hhr : t.halo ≤ t.run := by linarith
  have e1 : (reconcile t rthr).halo_eff = t.halo := by
    rw [reconcile_halo_eff]; exact min_eq_left hhr
  have e2 : (reconcile t rthr).wait_eff = t.wait := by
    rw [reconcile_wait_eff, e1]; exact min_eq_left hwh
  have e3 : (reconcile t rthr).exterior_eff = t.exterior := by
    rw [reconcile_exterior_eff, e1]; exact min_eq_left (by linarith)
  have e4 : (reconcile t rthr).test_avg = t.test / rthr :=
    reconcile_test_avg t rthr
  have e5 : (reconcile t rthr).interior_eff = t.interior - t.test / rthr := by
    rw [reconcile_interior_eff, e1, e3, e4]; exact min_eq_left (by linarith)
  have e6 : (reconcile t rthr).compute
      = t.exterior + (t.interior - t.test / rthr) := by
    rw [reconcile_compute, e3, e5]
  have e7 : (reconcile t rthr).halo_total = t.halo + t.test / rthr := by
    rw [reconcile_halo_total, e1, e4]
  have e8 : (reconcile t rthr).other
      = t.run - t.exterior - t.interior - t.halo := by
    rw [reconcile_other, e6, e7]
    rw [max_eq_left (by linarith)]
    ring
  refine ⟨?_, ?_, ?_, ?_, ?_, ?_, ?_, ?_⟩
  · rw [e6, e7, e8]; ring
  · rw [e1]; exact hh0
  · rw [e2]; exact hw0
  · rw [e3]; exact hx0
  · rw [e5]; linarith
  · rw [e6]; linarith
  · rw [e7]; linarith
  · rw [e8]; linarith

/-- Witness for the amended C1 at run 10, wait 1, halo 2, exterior 3,
interior 4, test 4, two region threads. -/
theorem C1_amended_witness :
    C1concl { run := 10, wait := 1, halo := 2, exterior := 3,
              interior := 4, test := 4 } 2 :=
  C1_amended_reconcile_partition _ 2 (by norm_num) (by norm_num)
    (by norm_num) (by norm_num) (by norm_num) (by norm_num)
    (by norm_num) (by norm_num)

/-- C2: the claim as stated is false.  With raw samples `run = 1`,
`wait = halo = exterior = interior = 0`, `test = 1` and one region
thread, `test_avg = 1` exceeds the raw `interior = 0`, yet
`interior_eff = min(0 - 1, 1 - 0 - 0) = -1`: it is reported as a
negative value, not clamped to zero. -/
theorem C2_counterexample :
    (reconcile { run := 1, wait := 0, halo := 0, exterior := 0,
                 interior := 0, test := 1 } 1).test_avg
        > ({ run := 1, wait := 0, halo := 0, exterior := 0,
             interior := 0, test := 1 } : RawTimers).interior ∧
    (reconcile { run := 1, wait := 0, halo := 0, exterior := 0,
                 interior := 0, test := 1 } 1).interior_eff = -1 := by
  constructor
  · rw [reconcile_test_avg]; norm_num
  · rw [reconcile_interior_eff, reconcile_test_avg, reconcile_exterior_eff,
      reconcile_halo_eff]
    norm_num [min_def]

/-- C2 (amended): whenever the per-thread average test time
`test / rthr` exceeds the raw interior sample, the effective interior
time is strictly negative — `interior_eff ≤ interior - test_avg < 0`;
no clamp to zero is applied. -/
theorem C2_amended_interior_eff_neg (t : RawTimers) (rthr : ℚ)
    (h : t.interior < t.test / rthr) :
    (reconcile t rthr).interior_eff < 0 := by
  rw [reconcile_interior_eff, reconcile_test_avg]
  calc min (t.interior - t.test / rthr)
        (t.run - (reconcile t rthr).halo_eff - (reconcile t rthr).exterior_eff)
      ≤ t.interior - t.test / rthr := min_le_left _ _
    _ < 0 := by linarith

/-- Witness for the amended C2: at the C2 counterexample input the
hypothesis holds and the effective interior time is negative. -/
theorem C2_amended_witness :
    (reconcile { run := 1, wait := 0, halo := 0, exterior := 0,
                 interior := 0, test := 1 } 1).interior_eff < 0 :=
  C2_amended_interior_eff_neg _ 1 (by norm_num)

/-! ## The solution state

The mutable `StencilContext` object: dimension kinds, the per-dimension
sizing settings (`KernelSettings _opts`), the two bounding boxes, the
derived overall domain sizes, the timers and step counters, the stencil
packs, and the grid registry. -/

/-- The kind of a dimension: step, domain or miscellaneous. -/
inductive DimKind
  | step
  | domain
  | misc
  deriving Repr, DecidableEq

/-- The errors thrown by the API layer (`THROW_YASK_EXCEPTION`),
abstracted to their kind plus the identifying data carried in the
message text. -/
inductive YaskError
  | InvalidDimensionKind (api dim : String)
  | PreparationRequired (api : String)
  | DuplicateGrid (name : String)
  deriving Repr, DecidableEq

/-- The per-dimension sizing settings held in `_opts`
(a `KernelSettings` object), one map per parameter. -/
structure KernelSettings where
  _num_ranks     : String → Int
  _rank_indices  : String → Int
  _rank_sizes    : String → Int
  _region_sizes  : String → Int
  _block_sizes   : String → Int
  _min_pad_sizes : String → Int

/-- An axis-aligned bounding box: begin/end per dimension plus the
validity flag `bb_valid`. -/
structure BoundingBox where
  bb_begin : String → Int
  bb_end   : String → Int
  bb_valid : Bool

/-- A named grid handle.  The `storage` field is an opaque identifier
of the backing storage buffer the grid points to. -/
structure Grid where
  name    : String
  storage : Int
  deriving Repr, DecidableEq

/-- Per-pack state: the pack's own timer, step counter and per-step
work estimates. -/
structure StencilPackState where
  pname : String
  timer : ℚ
  steps_done : Int
  tot_reads_per_step  : Int
  tot_writes_per_step : Int
  tot_fpops_per_step  : Int

/-- The `StencilContext` state touched by the API functions of
soln_apis.cpp. -/
structure StencilContext where
  dimKind : String → DimKind
  _opts : KernelSettings
  rank_bb : BoundingBox
  ext_bb : BoundingBox
  overall_domain_sizes : String → Int
  run_time  : ℚ
  ext_time  : ℚ
  int_time  : ℚ
  halo_time : ℚ
  wait_time : ℚ
  test_time : ℚ
  steps_done : Int
  stPacks : List StencilPackState
  tot_domain_pts : Int
  gridPtrs : List Grid
  gridMap : List (String × Grid)
  outputGridPtrs : List Grid
  outputGridMap : List (String × Grid)

/-- Whether a dimension kind is in the allowed mask
`(step_ok, domain_ok, misc_ok)`. -/
def dimKindAllowed (k : DimKind) (step_ok domain_ok misc_ok : Bool) : Bool :=
  match k with
  | .step => step_ok
  | .domain => domain_ok
  | .misc => misc_ok

/-- Modelled from the spec: the body of `checkDimType` is outside the
provided sources.  Per the spec it validates "that `dimension`'s kind
is permitted for `parameter`; on violation, fail with an
`InvalidDimensionKind` error naming the operation, the dimension, and
the allowed kinds". -/
def checkDimType (c : StencilContext) (dim fn : String)
    (step_ok domain_ok misc_ok : Bool) : Except YaskError Unit :=
  if dimKindAllowed (c.dimKind dim) step_ok domain_ok misc_ok then .ok ()
  else .error (.InvalidDimensionKind fn dim)

/-- Modelled from the spec: the body of `update_grid_info` is outside
the provided sources.  Per the spec, "every `set` recomputes any
dependent aggregate sizes (e.g., overall problem size = rank domain
size × rank count, per dimension) immediately" and changes nothing
else. -/
def update_grid_info (c : StencilContext) : StencilContext :=
  { c with overall_domain_sizes :=
      fun d => c._opts._rank_sizes d * c._opts._num_ranks d }

/-- Pointwise update of a per-dimension map, the meaning of
the C++ assignment `map[dim] = n`. -/
def setAt (f : String → Int) (dim : String) (n : Int) : String → Int :=
  fun d => if d = dim then n else f d

/-- The `GET_SOLN_API` macro (soln_apis.cpp lines 37-44): if the
parameter requires preparation and the rank bounding box is not valid,
throw the "called before calling prepare_solution()" error; otherwise
check the dimension kind and return the stored value. -/
def GET_SOLN_API (c : StencilContext) (api_name : String)
    (expr : StencilContext → String → Int)
    (step_ok domain_ok misc_ok prep_req : Bool) (dim : String) :
    Except YaskError Int :=
  if prep_req && !c.rank_bb.bb_valid then
    .error (.PreparationRequired api_name)
  else
    match checkDimType c dim api_name step_ok domain_ok misc_ok with
    | .error e => .error e
    | .ok _ => .ok (expr c dim)

def get_num_ranks (c : StencilContext) (dim : String) : Except YaskError Int :=
  GET_SOLN_API c "get_num_ranks" (fun c d => c._opts._num_ranks d)
    false true false false dim

def get_overall_domain_size (c : StencilContext) (dim : String) :
    Except YaskError Int :=
  GET_SOLN_API c "get_overall_domain_size" (fun c d => c.overall_domain_sizes d)
    false true false true dim

def get_rank_domain_size (c : StencilContext) (dim : String) :
    Except YaskError Int :=
  GET_SOLN_API c "get_rank_domain_size" (fun c d => c._opts._rank_sizes d)
    false true false false dim

def get_region_size (c : StencilContext) (dim : String) : Except YaskError Int :=
  GET_SOLN_API c "get_region_size" (fun c d => c._opts._region_sizes d)
    true true false false dim

def get_block_size (c : StencilContext) (dim : String) : Except YaskError Int :=
  GET_SOLN_API c "get_block_size" (fun c d => c._opts._block_sizes d)
    true true false false dim

def get_first_rank_domain_index (c : StencilContext) (dim : String) :
    Except YaskError Int :=
  GET_SOLN_API c "get_first_rank_domain_index" (fun c d => c.rank_bb.bb_begin d)
    false true false true dim

def get_last_rank_domain_index (c : StencilContext) (dim : String) :
    Except YaskError Int :=
  GET_SOLN_API c "get_last_rank_domain_index" (fun c d => c.rank_bb.bb_end d - 1)
    false true false true dim

def get_min_pad_size (c : StencilContext) (dim : String) : Except YaskError Int :=
  GET_SOLN_API c "get_min_pad_size" (fun c d => c._opts._min_pad_sizes d)
    false true false false dim

def get_rank_index (c : StencilContext) (dim : String) : Except YaskError Int :=
  GET_SOLN_API c "get_rank_index" (fun c d => c._opts._rank_indices d)
    false true false true dim

/-- The `SET_SOLN_API` macro (soln_apis.cpp lines 57-63): check the
dimension kind, perform the assignment, call `update_grid_info`, and
if `reset_prep`, mark both bounding boxes invalid. -/
def SET_SOLN_API (c : StencilContext) (api_name : String)
    (expr : StencilContext → String → Int → StencilContext)
    (step_ok domain_ok misc_ok reset_prep : Bool) (dim : String) (n : Int) :
    Except YaskError StencilContext :=
  match checkDimType c dim api_name step_ok domain_ok misc_ok with
  | .error e => .error e
  | .ok _ =>
    let c1 := update_grid_info (expr c dim n)
    .ok (if reset_prep then
          { c1 with rank_bb := { c1.rank_bb with bb_valid := false },
                    ext_bb := { c1.ext_bb with bb_valid := false } }
        else c1)

def set_rank_index (c : StencilContext) (dim : String) (n : Int) :
    Except YaskError StencilContext :=
  SET_SOLN_API c "set_rank_index"
    (fun c d n => { c with _opts :=
      { c._opts with _rank_indices := setAt c._opts._rank_indices d n } })
    false true false true dim n

def set_num_ranks (c : StencilContext) (dim : String) (n : Int) :
    Except YaskError StencilContext :=
  SET_SOLN_API c "set_num_ranks"
    (fun c d n => { c with _opts :=
      { c._opts with _num_ranks := setAt c._opts._num_ranks d n } })
    false true false true dim n

def set_rank_domain_size (c : StencilContext) (dim : String) (n : Int) :
    Except YaskError StencilContext :=
  SET_SOLN_API c "set_rank_domain_size"
    (fun c d n => { c with _opts :=
      { c._opts with _rank_sizes := setAt c._opts._rank_sizes d n } })
    false true false true dim n

def set_region_size (c : StencilContext) (dim : String) (n : Int) :
    Except YaskError StencilContext :=
  SET_SOLN_API c "set_region_size"
    (fun c d n => { c with _opts :=
      { c._opts with _region_sizes := setAt c._opts._region_sizes d n } })
    true true false true dim n

def set_block_size (c : StencilContext) (dim : String) (n : Int) :
    Except YaskError StencilContext :=
  SET_SOLN_API c "set_block_size"
    (fun c d n => { c with _opts :=
      { c._opts with _block_sizes := setAt c._opts._block_sizes d n } })
    true true false true dim n

def set_min_pad_size (c : StencilContext) (dim : String) (n : Int) :
    Except YaskError StencilContext :=
  SET_SOLN_API c "set_min_pad_size"
    (fun c d n => { c with _opts :=
      { c._opts with _min_pad_sizes := setAt c._opts._min_pad_sizes d n } })
    false true false false dim n

/-! ## Enumerations of the getter/setter families, with their flag
tables, for claims quantifying over all (parameter, dimension) pairs. -/

/-- The nine parameters of the `GET_SOLN_API` family. -/
inductive GetApi
  | num_ranks
  | overall_domain_size
  | rank_domain_size
  | region_size
  | block_size
  | first_rank_domain_index
  | last_rank_domain_index
  | min_pad_size
  | rank_index
  deriving Repr, DecidableEq

/-- Dispatch to the getter of a parameter. -/
def getApi : GetApi → StencilContext → String → Except YaskError Int
  | .num_ranks => get_num_ranks
  | .overall_domain_size => get_overall_domain_size
  | .rank_domain_size => get_rank_domain_size
  | .region_size => get_region_size
  | .block_size => get_block_size
  | .first_rank_domain_index => get_first_rank_domain_index
  | .last_rank_domain_index => get_last_rank_domain_index
  | .min_pad_size => get_min_pad_size
  | .rank_index => get_rank_index

/-- The API name of a getter, as it appears in its error messages. -/
def getApiName : GetApi → String
  | .num_ranks => "get_num_ranks"
  | .overall_domain_size => "get_overall_domain_size"
  | .rank_domain_size => "get_rank_domain_size"
  | .region_size => "get_region_size"
  | .block_size => "get_block_size"
  | .first_rank_domain_index => "get_first_rank_domain_index"
  | .last_rank_domain_index => "get_last_rank_domain_index"
  | .min_pad_size => "get_min_pad_size"
  | .rank_index => "get_rank_index"

/-- The `step_ok` flag of each getter. -/
def getStepOk : GetApi → Bool
  | .region_size => true
  | .block_size => true
  | _ => false

/-- The `domain_ok` flag of each getter (true for all nine). -/
def getDomainOk : GetApi → Bool := fun _ => true

/-- The `misc_ok` flag of each getter (false for all nine). -/
def getMiscOk : GetApi → Bool := fun _ => false

/-- The `prep_req` flag of each getter. -/
def getPrepReq : GetApi → Bool
  | .overall_domain_size => true
  | .first_rank_domain_index => true
  | .last_rank_domain_index => true
  | .rank_index => true
  | _ => false

/-- Whether a dimension kind is permitted for a getter. -/
def getKindOk (p : GetApi) (k : DimKind) : Bool :=
  dimKindAllowed k (getStepOk p) (getDomainOk p) (getMiscOk p)

/-- The expression each getter returns. -/
def getExpr : GetApi → StencilContext → String → Int
  | .num_ranks => fun c d => c._opts._num_ranks d
  | .overall_domain_size => fun c d => c.overall_domain_sizes d
  | .rank_domain_size => fun c d => c._opts._rank_sizes d
  | .region_size => fun c d => c._opts._region_sizes d
  | .block_size => fun c d => c._opts._block_sizes d
  | .first_rank_domain_index => fun c d => c.rank_bb.bb_begin d
  | .last_rank_domain_index => fun c d => c.rank_bb.bb_end d - 1
  | .min_pad_size => fun c d => c._opts._min_pad_sizes d
  | .rank_index => fun c d => c._opts._rank_indices d

theorem getApi_eq (p : GetApi) (c : StencilContext) (dim : String) :
    getApi p c dim
      = GET_SOLN_API c (getApiName p) (getExpr p) (getStepOk p)
          (getDomainOk p) (getMiscOk p) (getPrepReq p) dim := by
  cases p <;> rfl

/-- The six parameters of the `SET_SOLN_API` family. -/
inductive SetApi
  | rank_index
  | num_ranks
  | rank_domain_size
  | region_size
  | block_size
  | min_pad_size
  deriving Repr, DecidableEq

/-- Dispatch to the setter of a parameter. -/
def setApi : SetApi → StencilContext → String → Int → Except YaskError StencilContext
  | .rank_index => set_rank_index
  | .num_ranks => set_num_ranks
  | .rank_domain_size => set_rank_domain_size
  | .region_size => set_region_size
  | .block_size => set_block_size
  | .min_pad_size => set_min_pad_size

/-- The API name of a setter, as it appears in its error messages. -/
def setApiName : SetApi → String
  | .rank_index => "set_rank_index"
  | .num_ranks => "set_num_ranks"
  | .rank_domain_size => "set_rank_domain_size"
  | .region_size => "set_region_size"
  | .block_size => "set_block_size"
  | .min_pad_size => "set_min_pad_size"

/-- The `step_ok` flag of each setter. -/
def setStepOk : SetApi → Bool
  | .region_size => true
  | .block_size => true
  | _ => false

/-- The `domain_ok` flag of each setter (true for all six). -/
def setDomainOk : SetApi → Bool := fun _ => true

/-- The `misc_ok` flag of each setter (false for all six). -/
def setMiscOk : SetApi → Bool := fun _ => false

/-- The `reset_prep` flag of each setter: true for the five
geometry-affecting setters, false for `set_min_pad_size`. -/
def setResetPrep : SetApi → Bool
  | .min_pad_size => false
  | _ => true

/-- Whether a dimension kind is permitted for a setter. -/
def setKindOk (q : SetApi) (k : DimKind) : Bool :=
  dimKindAllowed k (setStepOk q) (setDomainOk q) (setMiscOk q)

/-- The stored per-dimension value a setter assigns, read back from a
state. -/
def paramVal : SetApi → StencilContext → String → Int
  | .rank_index => fun c d => c._opts._rank_indices d
  | .num_ranks => fun c d => c._opts._num_ranks d
  | .rank_domain_size => fun c d => c._opts._rank_sizes d
  | .region_size => fun c d => c._opts._region_sizes d
  | .block_size => fun c d => c._opts._block_sizes d
  | .min_pad_size => fun c d => c._opts._min_pad_sizes d

/-- The getter matching each setter. -/
def setGet : SetApi → GetApi
  | .rank_index => .rank_index
  | .num_ranks => .num_ranks
  | .rank_domain_size => .rank_domain_size
  | .region_size => .region_size
  | .block_size => .block_size
  | .min_pad_size => .min_pad_size

theorem SET_SOLN_API_eq_ok {c c' : StencilContext} {api : String}
    {expr : StencilContext → String → Int → StencilContext}
    {s d m rp : Bool} {dim : String} {n : Int} :
    SET_SOLN_API c api expr s d m rp dim n = .ok c' ↔
      dimKindAllowed (c.dimKind dim) s d m = true ∧
      c' = (let c1 := update_grid_info (expr c dim n)
            if rp then
              { c1 with rank_bb := { c1.rank_bb with bb_valid := false },
                        ext_bb := { c1.ext_bb with bb_valid := false } }
            else c1) := by
  unfold SET_SOLN_API checkDimType
  by_cases hk : dimKindAllowed (c.dimKind dim) s d m = true
  · simp [hk, eq_comm]
  · simp [hk]

/-- A freshly constructed, unprepared solution state: dimension "t" is
the step dimension, dimension "m" is a misc dimension, every other
name is a domain dimension; both bounding boxes are invalid; one rank;
no grids. -/
def ctx0 : StencilContext where
  dimKind := fun d =>
    if d = "t" then DimKind.step else if d = "m" then DimKind.misc
    else DimKind.domain
  _opts :=
    { _num_ranks := fun _ => 1, _rank_indices := fun _ => 0,
      _rank_sizes := fun _ => 128, _region_sizes := fun _ => 0,
      _block_sizes := fun _ => 0, _min_pad_sizes := fun _ => 0 }
  rank_bb := { bb_begin := fun _ => 0, bb_end := fun _ => 0, bb_valid := false }
  ext_bb := { bb_begin := fun _ => 0, bb_end := fun _ => 0, bb_valid := false }
  overall_domain_sizes := fun _ => 128
  run_time := 0
  ext_time := 0
  int_time := 0
  halo_time := 0
  wait_time := 0
  test_time := 0
  steps_done := 0
  stPacks := []
  tot_domain_pts := 0
  gridPtrs := []
  gridMap := []
  outputGridPtrs := []
  outputGridMap := []

/-- The four preparation-requiring getters all fail with
`PreparationRequired` on a state whose rank bounding box is invalid
(shared helper for several claims). -/
theorem prep_gate_errors (c : StencilContext) (dim : String)
    (hbb : c.rank_bb.bb_valid = false) :
    get_overall_domain_size c dim
        = .error (.PreparationRequired "get_overall_domain_size") ∧
    get_first_rank_domain_index c dim
        = .error (.PreparationRequired "get_first_rank_domain_index") ∧
    get_last_rank_domain_index c dim
        = .error (.PreparationRequired "get_last_rank_domain_index") ∧
    get_rank_index c dim = .error (.PreparationRequired "get_rank_index") := by
  simp [get_overall_domain_size, get_first_rank_domain_index,
    get_last_rank_domain_index, get_rank_index, GET_SOLN_API, hbb]

/-- C4: the four getters flagged `prep_req` fail with the
"called before calling prepare_solution()" error whenever the rank
bounding box is invalid, and the five unflagged getters succeed with
the stored value, for a dimension of an allowed kind, regardless of
preparation. -/
theorem C4_preparation_gate (c : StencilContext) (dim : String) :
    (c.rank_bb.bb_valid = false →
      get_overall_domain_size c dim
          = .error (.PreparationRequired "get_overall_domain_size") ∧
      get_first_rank_domain_index c dim
          = .error (.PreparationRequired "get_first_rank_domain_index") ∧
      get_last_rank_domain_index c dim
          = .error (.PreparationRequired "get_last_rank_domain_index") ∧
      get_rank_index c dim = .error (.PreparationRequired "get_rank_index")) ∧
    (c.dimKind dim = DimKind.domain →
      get_num_ranks c dim = .ok (c._opts._num_ranks dim) ∧
      get_rank_domain_size c dim = .ok (c._opts._rank_sizes dim) ∧
      get_min_pad_size c dim = .ok (c._opts._min_pad_sizes dim)) ∧
    (c.dimKind dim ≠ DimKind.misc →
      get_region_size c dim = .ok (c._opts._region_sizes dim) ∧
      get_block_size c dim = .ok (c._opts._block_sizes dim)) := by
  refine ⟨fun hbb => ?_, fun hdom => ?_, fun hmisc => ?_⟩
  · exact prep_gate_errors c dim hbb
  · simp [get_num_ranks, get_rank_domain_size, get_min_pad_size,
      GET_SOLN_API, checkDimType, dimKindAllowed, hdom]
  · cases hk : c.dimKind dim with
    | misc => exact absurd hk hmisc
    | step =>
      simp [get_region_size, get_block_size, GET_SOLN_API, checkDimType,
        dimKindAllowed, hk]
    | domain =>
      simp [get_region_size, get_block_size, GET_SOLN_API, checkDimType,
        dimKindAllowed, hk]

/-- Witness for C4, on the unprepared state `ctx0` and the domain
dimension "x". -/
theorem C4_preparation_gate_witness :
    get_overall_domain_size ctx0 "x"
        = .error (.PreparationRequired "get_overall_domain_size") ∧
    get_first_rank_domain_index ctx0 "x"
        = .error (.PreparationRequired "get_first_rank_domain_index") ∧
    get_rank_index ctx0 "x" = .error (.PreparationRequired "get_rank_index") ∧
    get_num_ranks ctx0 "x" = .ok 1 ∧
    get_rank_domain_size ctx0 "x" = .ok 128 ∧
    get_region_size ctx0 "x" = .ok 0 := by
  have h := C4_preparation_gate ctx0 "x"
  have h1 := h.1 rfl
  have h2 := h.2.1 (by decide)
  have h3 := h.2.2 (by decide)
  exact ⟨h1.1, h1.2.1, h1.2.2.2, h2.1, h2.2.1, h3.1⟩

/-- C10: for the four preparation-requiring getters called on a state
with an invalid rank bounding box and a dimension whose kind is not
permitted (anything but a domain dimension), the error raised is
`PreparationRequired`, not `InvalidDimensionKind`: the preparation
check runs before the dimension-kind check. -/
theorem C10_prep_check_first (c : StencilContext) (dim : String)
    (hbb : c.rank_bb.bb_valid = false)
    (hk : c.dimKind dim ≠ DimKind.domain) :
    (get_overall_domain_size c dim
        = .error (.PreparationRequired "get_overall_domain_size") ∧
     get_overall_domain_size c dim
        ≠ .error (.InvalidDimensionKind "get_overall_domain_size" dim)) ∧
    (get_first_rank_domain_index c dim
        = .error (.PreparationRequired "get_first_rank_domain_index") ∧
     get_first_rank_domain_index c dim
        ≠ .error (.InvalidDimensionKind "get_first_rank_domain_index" dim)) ∧
    (get_last_rank_domain_index c dim
        = .error (.PreparationRequired "get_last_rank_domain_index") ∧
     get_last_rank_domain_index c dim
        ≠ .error (.InvalidDimensionKind "get_last_rank_domain_index" dim)) ∧
    (get_rank_index c dim = .error (.PreparationRequired "get_rank_index") ∧
     get_rank_index c dim
        ≠ .error (.InvalidDimensionKind "get_rank_index" dim)) := by
  have h := prep_gate_errors c dim hbb
  refine ⟨⟨h.1, ?_⟩, ⟨h.2.1, ?_⟩, ⟨h.2.2.1, ?_⟩, ⟨h.2.2.2, ?_⟩⟩ <;>
    first
    | (rw [h.1]; simp)
    | (rw [h.2.1]; simp)
    | (rw [h.2.2.1]; simp)
    | (rw [h.2.2.2]; simp)

/-- Witness for C10, on the unprepared state `ctx0` and the step
dimension "t" (not permitted for any of the four getters). -/
theorem C10_prep_check_first_witness :
    get_rank_index ctx0 "t" = .error (.PreparationRequired "get_rank_index") ∧
    get_rank_index ctx0 "t"
        ≠ .error (.InvalidDimensionKind "get_rank_index" "t") :=
  (C10_prep_check_first ctx0 "t" rfl (by decide)).2.2.2

/-- C3: the claim as stated is false.  On the unprepared state `ctx0`
the step dimension "t" is not permitted for `get_rank_index`
(its allowed-kind mask is domain-only), yet the getter fails with
`PreparationRequired`, not with `InvalidDimensionKind`. -/
theorem C3_counterexample :
    getKindOk GetApi.rank_index (ctx0.dimKind "t") = false ∧
    ctx0.rank_bb.bb_valid = false ∧
    get_rank_index ctx0 "t" = .error (.PreparationRequired "get_rank_index") ∧
    get_rank_index ctx0 "t"
        ≠ .error (.InvalidDimensionKind "get_rank_index" "t") := by
  refine ⟨by decide, rfl, ?_, ?_⟩
  · exact (prep_gate_errors ctx0 "t" rfl).2.2.2
  · rw [(prep_gate_errors ctx0 "t" rfl).2.2.2]; simp

/-- C3 (amended): for every (parameter, dimension) pair whose kind is
not permitted, the setter always fails with `InvalidDimensionKind`
naming the operation and the dimension, and the getter fails with
`InvalidDimensionKind` in every state satisfying its preparation
precondition (always, for getters without the `prep_req` flag); a
preparation-requiring getter on an unprepared state fails with
`PreparationRequired` instead (see C10). -/
theorem C3_amended_kind_mismatch (c : StencilContext) (dim : String) :
    (∀ (q : SetApi) (n : Int), setKindOk q (c.dimKind dim) = false →
      setApi q c dim n = .error (.InvalidDimensionKind (setApiName q) dim)) ∧
    (∀ p : GetApi, getKindOk p (c.dimKind dim) = false →
      (getPrepReq p = false ∨ c.rank_bb.bb_valid = true) →
      getApi p c dim = .error (.InvalidDimensionKind (getApiName p) dim)) := by
  constructor
  · intro q n hq
    unfold setKindOk at hq
    cases q <;>
      simp_all [setApi, set_rank_index, set_num_ranks, set_rank_domain_size,
        set_region_size, set_block_size, set_min_pad_size, SET_SOLN_API,
        checkDimType, setStepOk, setDomainOk, setMiscOk, setApiName]
  · intro p hp hprep
    rw [getApi_eq]
    unfold getKindOk at hp
    have hguard : (getPrepReq p && !c.rank_bb.bb_valid) = false := by
      rcases hprep with h | h <;> simp [h]
    simp [GET_SOLN_API, hguard, checkDimType, hp]

/-- Witness for the amended C3: on `ctx0` and the misc dimension "m"
(not permitted for any parameter), `set_region_size` and
`get_num_ranks` both fail with `InvalidDimensionKind`. -/
theorem C3_amended_witness :
    setApi SetApi.region_size ctx0 "m" 4
        = .error (.InvalidDimensionKind "set_region_size" "m") ∧
    getApi GetApi.num_ranks ctx0 "m"
        = .error (.InvalidDimensionKind "get_num_ranks" "m") :=
  ⟨(C3_amended_kind_mismatch ctx0 "m").1 SetApi.region_size 4 (by decide),
   (C3_amended_kind_mismatch ctx0 "m").2 GetApi.num_ranks (by decide)
     (Or.inl rfl)⟩

/-- C5: a successful geometry-affecting setter (every setter except
`set_min_pad_size`) marks both bounding boxes invalid; a successful
`set_min_pad_size` leaves both validity flags unchanged; and every
successful setter leaves every other stored parameter value unchanged
(other parameters at every dimension, and the set parameter at every
other dimension). -/
theorem C5_set_frame_effect (q : SetApi) (c c' : StencilContext)
    (dim : String) (n : Int) (h : setApi q c dim n = .ok c') :
    (q ≠ SetApi.min_pad_size →
      c'.rank_bb.bb_valid = false ∧ c'.ext_bb.bb_valid = false) ∧
    (q = SetApi.min_pad_size →
      c'.rank_bb.bb_valid = c.rank_bb.bb_valid ∧
      c'.ext_bb.bb_valid = c.ext_bb.bb_valid) ∧
    (∀ (q2 : SetApi) (d2 : String), q2 ≠ q ∨ d2 ≠ dim →
      paramVal q2 c' d2 = paramVal q2 c d2) := by
  cases q
  all_goals
    simp only [setApi, set_rank_index, set_num_ranks, set_rank_domain_size,
      set_region_size, set_block_size, set_min_pad_size] at h
  all_goals rw [SET_SOLN_API_eq_ok] at h
  all_goals obtain ⟨hk, rfl⟩ := h
  all_goals refine ⟨fun hq => ?_, fun hq => ?_, fun q2 d2 hne => ?_⟩
  all_goals try exact ⟨rfl, rfl⟩
  all_goals try simp at hq
  all_goals
    rcases hne with hne | hne <;> cases q2 <;>
      simp_all [paramVal, update_grid_info, setAt]

/-- The state reached from `ctx0` by `set_region_size("x", 8)`. -/
def ctx1 : StencilContext := (set_region_size ctx0 "x" 8).toOption.getD ctx0

/-- The state reached from `ctx0` by `set_min_pad_size("x", 3)`. -/
def ctx2 : StencilContext := (set_min_pad_size ctx0 "x" 3).toOption.getD ctx0

/-- Witness for C5: setting the region size invalidates both bounding
boxes and leaves the block size untouched; setting the minimum padding
leaves both validity flags as they were. -/
theorem C5_set_frame_effect_witness :
    ctx1.rank_bb.bb_valid = false ∧ ctx1.ext_bb.bb_valid = false ∧
    paramVal SetApi.block_size ctx1 "x" = paramVal SetApi.block_size ctx0 "x" ∧
    ctx2.rank_bb.bb_valid = ctx0.rank_bb.bb_valid ∧
    ctx2.ext_bb.bb_valid = ctx0.ext_bb.bb_valid := by
  have h1 := C5_set_frame_effect SetApi.region_size ctx0 ctx1 "x" 8 (by rfl)
  have h2 := C5_set_frame_effect SetApi.min_pad_size ctx0 ctx2 "x" 3 (by rfl)
  exact ⟨(h1.1 (by decide)).1, (h1.1 (by decide)).2,
    h1.2.2 SetApi.block_size "x" (Or.inl (by decide)),
    (h2.2.1 rfl).1, (h2.2.1 rfl).2⟩

/-- C6: for every setter/getter pair over the same parameter, a
successful `set(dim, n)` followed by the matching `get(dim)` — in a
state satisfying the getter's preparation precondition, with no
intervening change — returns exactly `n`. -/
theorem C6_set_get_roundtrip (q : SetApi) (c c' : StencilContext)
    (dim : String) (n : Int) (h : setApi q c dim n = .ok c')
    (hprep : getPrepReq (setGet q) = true → c'.rank_bb.bb_valid = true) :
    getApi (setGet q) c' dim = .ok n := by
  cases q
  all_goals
    simp only [setApi, set_rank_index, set_num_ranks, set_rank_domain_size,
      set_region_size, set_block_size, set_min_pad_size] at h
  all_goals rw [SET_SOLN_API_eq_ok] at h
  all_goals obtain ⟨hk, rfl⟩ := h
  case rank_index =>
    have hb := hprep rfl
    simp at hb
  all_goals
    simp [setGet, getApi, get_num_ranks, get_rank_domain_size,
      get_region_size, get_block_size, get_min_pad_size, GET_SOLN_API,
      checkDimType, update_grid_info, setAt, hk]

/-- Witness for C6: after `set_region_size("x", 8)` on `ctx0`,
`get_region_size("x")` returns 8. -/
theorem C6_set_get_roundtrip_witness :
    getApi (setGet SetApi.region_size) ctx1 "x" = .ok 8 :=
  C6_set_get_roundtrip SetApi.region_size ctx0 ctx1 "x" 8 (by rfl)
    (fun hq => absurd hq (by decide))

/-! ## Grid registry (`StencilContext::addGrid` lines 320-336,
`StencilContext::share_grid_storage` lines 282-294)

The C++ `std::map` is modelled as an association list looked up with
`List.lookup`; the C++ exception leaves the object unchanged, so
`addGrid` returns the (unchanged or extended) state together with an
optional error. -/

/-- The function `StencilContext::addGrid`: registering a duplicate name throws and
mutates nothing; a fresh name is appended to the master list and map,
and to the output list and map when `is_output`. -/
def addGrid (c : StencilContext) (gp : Grid) (is_output : Bool) :
    StencilContext × Option YaskError :=
  if (c.gridMap.lookup gp.name).isSome then
    (c, some (.DuplicateGrid gp.name))
  else
    ({ c with
        gridPtrs := c.gridPtrs ++ [gp],
        gridMap := c.gridMap ++ [(gp.name, gp)],
        outputGridPtrs :=
          if is_output then c.outputGridPtrs ++ [gp] else c.outputGridPtrs,
        outputGridMap :=
          if is_output then c.outputGridMap ++ [(gp.name, gp)]
          else c.outputGridMap },
     none)

/-- Modelled from the spec: the body of `Grid::share_storage` is
outside the provided sources.  Per the spec it "makes this registry's
grid alias the other's backing storage": the grid keeps its name and
takes the source grid's storage handle. -/
def grid_share_storage (gp sgp : Grid) : Grid :=
  { gp with storage := sgp.storage }

/-- The function `StencilContext::share_grid_storage`: for each grid in this
context's list, look its name up in the source context's map and, when
found, share the source grid's storage. -/
def share_grid_storage (c source : StencilContext) : StencilContext :=
  { c with gridPtrs := c.gridPtrs.map (fun gp =>
      match source.gridMap.lookup gp.name with
      | some sgp => grid_share_storage gp sgp
      | none => gp) }

/-- C7: registering a grid under a name already in the map fails with
the duplicate-grid error and returns the state completely unchanged;
registering a fresh name succeeds, appends the grid to the master list
and map, and appends it to the output list and map exactly when
`is_output` is true. -/
theorem C7_addGrid (c : StencilContext) (gp : Grid) (is_output : Bool) :
    ((c.gridMap.lookup gp.name).isSome = true →
      addGrid c gp is_output = (c, some (.DuplicateGrid gp.name))) ∧
    (c.gridMap.lookup gp.name = none →
      (addGrid c gp is_output).2 = none ∧
      (addGrid c gp is_output).1.gridPtrs = c.gridPtrs ++ [gp] ∧
      (addGrid c gp is_output).1.gridMap = c.gridMap ++ [(gp.name, gp)] ∧
      (addGrid c gp is_output).1.outputGridPtrs
        = (if is_output then c.outputGridPtrs ++ [gp]
           else c.outputGridPtrs) ∧
      (addGrid c gp is_output).1.outputGridMap
        = (if is_output then c.outputGridMap ++ [(gp.name, gp)]
           else c.outputGridMap)) := by
  constructor
  · intro hdup
    simp [addGrid, hdup]
  · intro hfresh
    simp [addGrid, hfresh]

/-- The registry state after registering an output grid named
"temperature" in `ctx0`. -/
def ctxg : StencilContext :=
  (addGrid ctx0 { name := "temperature", storage := 1 } true).1

/-- Witness for C7: registering "temperature" in the empty registry
succeeds and fills all four containers; registering it again fails
with the duplicate-grid error and changes nothing. -/
theorem C7_addGrid_witness :
    (addGrid ctx0 { name := "temperature", storage := 1 } true).2 = none ∧
    (addGrid ctx0 { name := "temperature", storage := 1 } true).1.gridPtrs
      = [{ name := "temperature", storage := 1 }] ∧
    addGrid ctxg { name := "temperature", storage := 2 } false
      = (ctxg, some (.DuplicateGrid "temperature")) := by
  have h1 := C7_addGrid ctx0 { name := "temperature", storage := 1 } true
  have h2 := C7_addGrid ctxg { name := "temperature", storage := 2 } false
  refine ⟨(h1.2 rfl).1, ?_, h2.1 (by rfl)⟩
  have := (h1.2 rfl).2.1
  simpa [ctx0] using this

/-- C8: `share_grid_storage` never fails and rewrites exactly the
matched grids: it preserves the length and the names of this context's
grid list; a grid whose name is found in the source map takes that
source grid's storage, and a grid whose name is absent from the source
map is returned untouched. -/
theorem C8_share_grid_storage (c source : StencilContext) (i : ℕ)
    (gp : Grid) (h : c.gridPtrs[i]? = some gp) :
    (share_grid_storage c source).gridPtrs.length = c.gridPtrs.length ∧
    (∀ sgp, source.gridMap.lookup gp.name = some sgp →
      (share_grid_storage c source).gridPtrs[i]?
        = some { name := gp.name, storage := sgp.storage }) ∧
    (source.gridMap.lookup gp.name = none →
      (share_grid_storage c source).gridPtrs[i]? = some gp) := by
  refine ⟨by simp [share_grid_storage], ?_, ?_⟩
  · intro sgp hs
    simp [share_grid_storage, h, hs, grid_share_storage]
  · intro hn
    simp [share_grid_storage, h, hn]

/-- Witness for C8: registry A holds "temperature" (storage 1) and
"pressure" (storage 2); source registry B holds only "temperature"
(storage 7).  Sharing aliases A's "temperature" to storage 7 and
leaves "pressure" untouched. -/
def ctxA : StencilContext :=
  { ctx0 with
      gridPtrs := [{ name := "temperature", storage := 1 },
                   { name := "pressure", storage := 2 }],
      gridMap := [("temperature", { name := "temperature", storage := 1 }),
                  ("pressure", { name := "pressure", storage := 2 })] }

/-- The source registry for the C8 witness. -/
def ctxB : StencilContext :=
  { ctx0 with
      gridPtrs := [{ name := "temperature", storage := 7 }],
      gridMap := [("temperature", { name := "temperature", storage := 7 })] }

/-- Witness for C8 on the temperature/pressure scenario. -/
theorem C8_share_grid_storage_witness :
    (share_grid_storage ctxA ctxB).gridPtrs[0]?
      = some { name := "temperature", storage := 7 } ∧
    (share_grid_storage ctxA ctxB).gridPtrs[1]?
      = some { name := "pressure", storage := 2 } := by
  have h0 := C8_share_grid_storage ctxA ctxB 0
    { name := "temperature", storage := 1 } (by rfl)
  have h1 := C8_share_grid_storage ctxA ctxB 1
    { name := "pressure", storage := 2 } (by rfl)
  exact ⟨h0.2.1 { name := "temperature", storage := 7 } (by rfl),
         h1.2.2 (by rfl)⟩

/-! ## Statistics report and reset (`StencilContext::get_stats` lines
387-450 and 546-549, `StencilContext::clear_timers` lines 553-565) -/

/-- The `Stats` object returned by `get_stats`, also used for each
pack's `sp->stats`. -/
structure Stats where
  npts   : Int
  nsteps : Int
  run_time  : ℚ
  halo_time : ℚ
  nreads  : Int
  nwrites : Int
  nfpops  : Int
  pts_ps   : ℚ
  reads_ps : ℚ
  writes_ps : ℚ
  flops    : ℚ
  deriving Repr, DecidableEq

/-- One iteration of the per-pack loop of `get_stats` (lines 405-442):
the accumulator is (tptime, psteps, total nreads, total nwrites, total
nfpops, per-pack stats so far); the pack time is clamped to the
remaining compute budget `ctime - tptime`, and rates are divided only
when the pack time is strictly positive. -/
def packFold (tdp : Int) (ctime : ℚ)
    (acc : ℚ × Int × Int × Int × Int × List Stats) (sp : StencilPackState) :
    ℚ × Int × Int × Int × Int × List Stats :=
  let tptime := acc.1
  let psteps := acc.2.1
  let nreads := acc.2.2.1
  let nwrites := acc.2.2.2.1
  let nfpops := acc.2.2.2.2.1
  let out := acc.2.2.2.2.2
  let ns := sp.steps_done
  let prd := sp.tot_reads_per_step * ns
  let pwr := sp.tot_writes_per_step * ns
  let pfp := sp.tot_fpops_per_step * ns
  let ptime := min sp.timer (ctime - tptime)
  let np := tdp * ns
  let ps : Stats :=
    { npts := tdp, nsteps := ns, run_time := ptime, halo_time := 0,
      nreads := prd, nwrites := pwr, nfpops := pfp,
      reads_ps := if 0 < ptime then (prd : ℚ) / ptime else 0,
      writes_ps := if 0 < ptime then (pwr : ℚ) / ptime else 0,
      flops := if 0 < ptime then (pfp : ℚ) / ptime else 0,
      pts_ps := if 0 < ptime then (np : ℚ) / ptime else 0 }
  (tptime + ptime, psteps + ns, nreads + prd, nwrites + pwr, nfpops + pfp,
   out ++ [ps])

/-- The function `StencilContext::clear_timers`: zero the six timers, the aggregate
step counter, and every pack's timer and step counter. -/
def clear_timers (c : StencilContext) : StencilContext :=
  { c with run_time := 0, ext_time := 0, int_time := 0, halo_time := 0,
           wait_time := 0, test_time := 0, steps_done := 0,
           stPacks := c.stPacks.map
             (fun sp => { sp with timer := 0, steps_done := 0 }) }

/-- The aggregate and per-pack statistics computed by `get_stats`
before it clears the counters. -/
def get_stats_report (c : StencilContext) (rthr : ℚ) :
    Stats × List Stats :=
  let rtime := c.run_time
  let r := reconcile { run := c.run_time, wait := c.wait_time,
                       halo := c.halo_time, exterior := c.ext_time,
                       interior := c.int_time, test := c.test_time } rthr
  let ctime := r.compute
  let htime := r.halo_total
  let acc := c.stPacks.foldl (packFold c.tot_domain_pts ctime)
    (0, 0, 0, 0, 0, [])
  let nreads := acc.2.2.1
  let nwrites := acc.2.2.2.1
  let nfpops := acc.2.2.2.2.1
  let packStats := acc.2.2.2.2.2
  let npts_done := c.tot_domain_pts * c.steps_done
  ({ npts := c.tot_domain_pts, nsteps := c.steps_done,
     run_time := rtime, halo_time := htime,
     nreads := nreads, nwrites := nwrites, nfpops := nfpops,
     reads_ps := if 0 < rtime then (nreads : ℚ) / rtime else 0,
     writes_ps := if 0 < rtime then (nwrites : ℚ) / rtime else 0,
     flops := if 0 < rtime then (nfpops : ℚ) / rtime else 0,
     pts_ps := if 0 < rtime then (npts_done : ℚ) / rtime else 0 },
   packStats)

/-- The function `StencilContext::get_stats`: compute the aggregate and per-pack
statistics, then clear all counters as the final action and return. -/
def get_stats (c : StencilContext) (rthr : ℚ) :
    Stats × List Stats × StencilContext :=
  ((get_stats_report c rthr).1, (get_stats_report c rthr).2, clear_timers c)

/-- Whether every timer and step counter of a state is zero. -/
def timersCleared (c : StencilContext) : Bool :=
  decide (c.run_time = 0) && decide (c.ext_time = 0) &&
  decide (c.int_time = 0) && decide (c.halo_time = 0) &&
  decide (c.wait_time = 0) && decide (c.test_time = 0) &&
  decide (c.steps_done = 0) &&
  c.stPacks.all (fun sp => decide (sp.timer = 0) && decide (sp.steps_done = 0))

/-- The all-zero raw timer sample vector, the reading of a freshly
cleared state. -/
def rawZero : RawTimers :=
  { run := 0, wait := 0, halo := 0, exterior := 0, interior := 0, test := 0 }

theorem reconcile_zero (rthr : ℚ) :
    reconcile rawZero rthr
      = { halo_eff := 0, wait_eff := 0, exterior_eff := 0, test_avg := 0,
          interior_eff := 0, compute := 0, halo_total := 0, other := 0 } := by
  unfold reconcile rawZero
  norm_num

theorem packFold_cleared (tdp : Int) (l : List StencilPackState)
    (acc : ℚ × Int × Int × Int × Int × List Stats)
    (hl : l.all (fun sp => decide (sp.timer = 0)
      && decide (sp.steps_done = 0)) = true)
    (hacc : acc.1 = 0)
    (hout : acc.2.2.2.2.2.all (fun ps => decide (ps.run_time = 0)
      && decide (ps.nsteps = 0)) = true) :
    (l.foldl (packFold tdp 0) acc).1 = 0 ∧
    (l.foldl (packFold tdp 0) acc).2.2.2.2.2.all
      (fun ps => decide (ps.run_time = 0) && decide (ps.nsteps = 0)) = true := by
  induction l generalizing acc with
  | nil => exact ⟨hacc, hout⟩
  | cons sp tl ih =>
    simp only [List.all_cons, Bool.and_eq_true, decide_eq_true_eq] at hl
    obtain ⟨⟨ht, hs⟩, htl⟩ := hl
    rw [List.foldl_cons]
    apply ih _ (by simpa using htl)
    · simp [packFold, hacc, ht]
    · simp only [packFold, hacc, ht, hs]
      simp only [List.all_append, Bool.and_eq_true]
      refine ⟨by simpa using hout, ?_⟩
      simp

/-- C9: `get_stats` returns the state with all six timers, the
aggregate step counter, and every pack's timer and step counter
cleared (its final action is `clear_timers`), so a second `get_stats`
call with no intervening activity reports zero elapsed run time, zero
halo time, zero aggregate steps, and all-zero per-pack elapsed times
and step counts. -/
theorem C9_report_stats_consumed (c : StencilContext) (rthr : ℚ) :
    (get_stats c rthr).2.2 = clear_timers c ∧
    timersCleared (clear_timers c) = true ∧
    (get_stats (clear_timers c) rthr).1.run_time = 0 ∧
    (get_stats (clear_timers c) rthr).1.halo_time = 0 ∧
    (get_stats (clear_timers c) rthr).1.nsteps = 0 ∧
    ((get_stats (clear_timers c) rthr).2.1).all
      (fun ps => decide (ps.run_time = 0) && decide (ps.nsteps = 0))
      = true := by
  refine ⟨rfl, ?_, rfl, ?_, rfl, ?_⟩
  · simp [timersCleared, clear_timers, List.all_map, Function.comp]
  · show (reconcile rawZero rthr).halo_total = 0
    rw [reconcile_zero]
  · have hc : (reconcile rawZero rthr).compute = 0 := by rw [reconcile_zero]
    show (((clear_timers c).stPacks.foldl
        (packFold (clear_timers c).tot_domain_pts
          (reconcile rawZero rthr).compute)
        (0, 0, 0, 0, 0, [])).2.2.2.2.2.all
      (fun ps => decide (ps.run_time = 0) && decide (ps.nsteps = 0))) = true
    rw [hc]
    exact (packFold_cleared _ _ _ (by simp [clear_timers, List.all_map,
      Function.comp]) rfl (by simp)).2

end Yask
